import Mathlib

/-
  Verification development for the darco2903-db library.

  Shallow embedding of the DataBase class: the connection registry and
  constructor (src/unnamed/part_001, lines 4-60), the lifecycle state
  machine (connect/disconnect/checkConnection, lines 82-117), the CRUD
  facade with its precondition guard and connection-error handler
  (lines 131-190), the legacy insert helpers (src/src/index.js, lines
  115-145), and the pagination helpers (src/src/index.d.ts, lines
  856-886).

  Backend (typeorm) calls are modelled by explicit outcome parameters:
  each Lean operation takes the success/failure outcome of the backend
  calls it performs (`initOk` for dataSource initialization, `destroyOk`
  for dataSource.destroy, `queryOk` for the liveness query, and an
  `Except BackendError` result for a repository primitive).
-/

namespace Darco

/-- A backend (typeorm / driver) error. `code` mirrors `err.code`
(e.g. "ECONNREFUSED"); `tag` distinguishes concrete error objects so
that "re-raised unchanged" is meaningful. -/
structure BackendError where
  code : String
  tag : Nat
deriving DecidableEq

/-- The errors thrown by the DataBase class. The first five are the
constructor's configuration errors (part_001 lines 34-38); the next
three are the lifecycle errors; `backend` wraps an error propagated
from the backend. -/
inductive DBError where
  | typeRequired
  | hostRequired
  | userRequired
  | databaseRequired
  | tablesRequired
  | alreadyConnected
  | notConnected
  | connInProgress
  | backend (e : BackendError)
deriving DecidableEq

/-- The exact `Error` message the source attaches to each lifecycle or
configuration error (`backend` errors carry no fixed message). -/
def DBError.message : DBError → Option String
  | .typeRequired => some "Database type is required"
  | .hostRequired => some "Database host is required"
  | .userRequired => some "Database user is required"
  | .databaseRequired => some "Database name is required"
  | .tablesRequired => some "Database tables are required"
  | .alreadyConnected => some "Already connected to database"
  | .notConnected => some "Not connected to database"
  | .connInProgress => some "Database is initializing"
  | .backend _ => none

/-- The `synchronize` option may be a boolean or a string
(part_001 line 56: `typeof synchronize === "string" ? synchronize === "true" : synchronize`). -/
inductive SyncOpt where
  | bool (b : Bool)
  | str (s : String)
deriving DecidableEq

/-- Coercion of the `synchronize` option, part_001 line 56. -/
def syncVal : SyncOpt → Bool
  | .bool b => b
  | .str s => s == "true"

/-- Constructor configuration (part_001 line 33). A JS string field
that is absent or empty is falsy, so absent-or-empty is modelled as
the empty string; `tables` is an array, for which only absent/null is
falsy (an empty array is truthy), so it is an `Option`. Defaults
mirror the destructuring defaults: `port = 3306`, `password = ""`,
`synchronize = false`. -/
structure Config where
  type : String
  host : String
  port : Nat := 3306
  user : String
  password : String := ""
  database : String
  tables : Option (List String)
  synchronize : SyncOpt := .bool false
deriving DecidableEq

/-- The options object passed to `new orm.DataSource` (part_001
lines 48-58). -/
structure DataSourceOpts where
  type : String
  host : String
  port : Nat
  username : String
  password : String
  database : String
  entities : List String
  synchronize : Bool
  cache : Bool
deriving DecidableEq

/-- A registered DataBase instance: its registry key (part_001
line 40) and the construction-time DataSource options. -/
structure Conn where
  key : String
  dataSource : DataSourceOpts
deriving DecidableEq

/-- The instance key, part_001 line 40: built from the RAW host,
port and database. -/
def dbKey (host : String) (port : Nat) (database : String) : String :=
  host ++ ":" ++ toString port ++ "/" ++ database

/-- Host normalization applied only inside the DataSource options,
part_001 line 50. -/
def normalizeHost (h : String) : String :=
  if h == "localhost" then "127.0.0.1" else h

/-- The static instance registry `DataBase.#instances` (part_001
line 6): a JS Map, modelled as an insertion-ordered association list
with distinct keys. -/
abbrev Registry := List (String × Conn)

/-- `DataBase.getByKey` (part_001 lines 11-13). -/
def getByKey (reg : Registry) (k : String) : Option Conn :=
  (reg.find? (fun p => p.1 == k)).map (fun p => p.2)

/-- The constructor (part_001 lines 33-60): validation of the five
required fields in source order, then key derivation from the raw
host, then the registry lookup (returning the existing instance
unchanged on a hit), and otherwise construction and registration of a
new instance whose DataSource host is normalized. Returns the
registry after the call together with the instance the caller
receives. -/
def construct (reg : Registry) (cfg : Config) :
    Except DBError (Registry × Conn) :=
  if cfg.type.isEmpty then .error .typeRequired
  else if cfg.host.isEmpty then .error .hostRequired
  else if cfg.user.isEmpty then .error .userRequired
  else if cfg.database.isEmpty then .error .databaseRequired
  else
    match cfg.tables with
    | none => .error .tablesRequired
    | some tbls =>
      let k := dbKey cfg.host cfg.port cfg.database
      match getByKey reg k with
      | some c => .ok (reg, c)
      | none =>
        let c : Conn :=
          { key := k
            dataSource :=
              { type := cfg.type
                host := normalizeHost cfg.host
                port := cfg.port
                username := cfg.user
                password := cfg.password
                database := cfg.database
                entities := tbls
                synchronize := syncVal cfg.synchronize
                cache := true } }
        .ok (reg ++ [(k, c)], c)

/-- Mutable per-instance lifecycle state: `isInit` is
`dataSource.isInitialized` (the `isConnected` getter, part_001
lines 78-80), `initConn` is the `#initConn` flag, and the listener
lists record the callbacks registered for the `connect` and
`disconnect` events, in registration order (listeners are identified
by numbers; `on` itself is named `onEvent` here because `on` is a
reserved token in Lean). -/
structure ConnSt where
  isInit : Bool
  initConn : Bool
  listenersConnect : List Nat
  listenersDisconnect : List Nat
deriving DecidableEq

/-- `on(event, listener)` (part_001 lines 119-121): appends the
listener to the event's registration list. -/
def onEvent (st : ConnSt) (event : String) (l : Nat) : ConnSt :=
  if event == "connect" then
    { st with listenersConnect := st.listenersConnect ++ [l] }
  else if event == "disconnect" then
    { st with listenersDisconnect := st.listenersDisconnect ++ [l] }
  else st

/-- `connect()` (part_001 lines 82-91). `initOk` is the outcome of
`dataSource.initialize()`, `iErr` the backend error when it fails.
Returns the post-state and either the list of `connect` listeners
notified (in registration order, by `emit`) or the error thrown.
The `finally` clause clears `#initConn` on both outcomes. -/
def connect (st : ConnSt) (initOk : Bool) (iErr : BackendError) :
    ConnSt × Except DBError (List Nat) :=
  if st.isInit || st.initConn then (st, .error .alreadyConnected)
  else if initOk then
    ({ st with isInit := true, initConn := false }, .ok st.listenersConnect)
  else
    ({ st with initConn := false }, .error (.backend iErr))

/-- `disconnect()` (part_001 lines 93-100). `destroyOk` is the
outcome of `dataSource.destroy()`, `dErr` the backend error when it
fails (in which case the rejection propagates and `isInitialized`
is left as the backend leaves it, modelled as unchanged). On success
the `disconnect` listeners are notified in registration order. -/
def disconnect (st : ConnSt) (destroyOk : Bool) (dErr : BackendError) :
    ConnSt × Except DBError (List Nat) :=
  if !st.isInit then (st, .error .notConnected)
  else if destroyOk then
    ({ st with isInit := false }, .ok st.listenersDisconnect)
  else (st, .error (.backend dErr))

/-- `checkConnection()` (part_001 lines 102-117). `queryOk` is the
outcome of the `SELECT VERSION()` liveness query; `destroyOk` and
`initOk` the outcomes of the backend calls made by the internal
`disconnect()` / `connect()` when those run. The query's failure is
caught and answered with an internal `disconnect()` whose rejection,
if any, propagates out (the async catch handler does not guard it);
the reconnect's error is swallowed by `.catch((err) => {})`; the
return value is `this.isConnected` read at return time. -/
def checkConnection (st : ConnSt) (queryOk destroyOk initOk : Bool)
    (dErr iErr : BackendError) : ConnSt × Except DBError Bool :=
  if st.isInit then
    if queryOk then (st, .ok st.isInit)
    else
      match disconnect st destroyOk dErr with
      | (st2, .ok _) =>
        let (st3, _) := connect st2 initOk iErr
        (st3, .ok st3.isInit)
      | (st2, .error e) => (st2, .error e)
  else
    let (st3, _) := connect st initOk iErr
    (st3, .ok st3.isInit)

/-- The private precondition guard `#checkConnection` (part_001
lines 131-137): `Not connected to database` when `isConnected` is
false, otherwise `Database is initializing` when `#initConn` is set,
in that source order. -/
def privGuard (st : ConnSt) : Option DBError :=
  if !st.isInit then some .notConnected
  else if st.initConn then some .connInProgress
  else none

/-- The private rejection handler `#catchConnectionError` (part_001
lines 139-146): on `ECONNREFUSED`/`ECONNRESET` it awaits an internal
`disconnect()` and then re-throws the original error; a rejection of
that `disconnect()` itself propagates instead (the `throw err` line
is then never reached). Other errors are re-thrown unchanged with no
disconnect. Returns the post-state and the error the caller sees. -/
def catchConnectionError (st : ConnSt) (e : BackendError)
    (destroyOk : Bool) (dErr : BackendError) : ConnSt × DBError :=
  if e.code == "ECONNREFUSED" || e.code == "ECONNRESET" then
    match disconnect st destroyOk dErr with
    | (st2, .ok _) => (st2, .backend e)
    | (st2, .error e2) => (st2, e2)
  else (st, .backend e)

/-- The template every CRUD facade method follows (part_001
lines 152-190): `this.#checkConnection()` first (throwing before the
repository is ever contacted), then the repository primitive whose
outcome is `res`, with rejections routed through
`#catchConnectionError`. -/
def runCrud {α : Type} (st : ConnSt) (res : Except BackendError α)
    (destroyOk : Bool) (dErr : BackendError) :
    ConnSt × Except DBError α :=
  match privGuard st with
  | some err => (st, .error err)
  | none =>
    match res with
    | .ok v => (st, .ok v)
    | .error e =>
      let p := catchConnectionError st e destroyOk dErr
      (p.1, .error p.2)

/-- `find(repoName, query)` (part_001 lines 152-155): guard, then
`getRepository(repoName).find(query)` whose outcome is `res`, with
`.catch(#catchConnectionError)`. -/
def find {α : Type} (st : ConnSt) (res : Except BackendError α)
    (destroyOk : Bool) (dErr : BackendError) : ConnSt × Except DBError α :=
  runCrud st res destroyOk dErr

/-- `findOne(repoName, query)` (part_001 lines 157-160), same
template. -/
def findOne {α : Type} (st : ConnSt) (res : Except BackendError α)
    (destroyOk : Bool) (dErr : BackendError) : ConnSt × Except DBError α :=
  runCrud st res destroyOk dErr

/-- `insert(repoName, data)` (part_001 lines 162-165), same
template. -/
def insert {α : Type} (st : ConnSt) (res : Except BackendError α)
    (destroyOk : Bool) (dErr : BackendError) : ConnSt × Except DBError α :=
  runCrud st res destroyOk dErr

/-- `update(repoName, query, data)` (part_001 lines 167-170), same
template. -/
def update {α : Type} (st : ConnSt) (res : Except BackendError α)
    (destroyOk : Bool) (dErr : BackendError) : ConnSt × Except DBError α :=
  runCrud st res destroyOk dErr

/-- `delete(repoName, query)` (part_001 lines 172-175), same
template. -/
def delete {α : Type} (st : ConnSt) (res : Except BackendError α)
    (destroyOk : Bool) (dErr : BackendError) : ConnSt × Except DBError α :=
  runCrud st res destroyOk dErr

/-- `count(repoName, query)` (part_001 lines 177-180), same
template. -/
def count {α : Type} (st : ConnSt) (res : Except BackendError α)
    (destroyOk : Bool) (dErr : BackendError) : ConnSt × Except DBError α :=
  runCrud st res destroyOk dErr

/-- `increment(repoName, field, query, value)` (part_001
lines 182-185), same template. -/
def increment {α : Type} (st : ConnSt) (res : Except BackendError α)
    (destroyOk : Bool) (dErr : BackendError) : ConnSt × Except DBError α :=
  runCrud st res destroyOk dErr

/-- `decrement(repoName, field, query, value)` (part_001
lines 187-190), same template. -/
def decrement {α : Type} (st : ConnSt) (res : Except BackendError α)
    (destroyOk : Bool) (dErr : BackendError) : ConnSt × Except DBError α :=
  runCrud st res destroyOk dErr

/-- One entry of `res.identifiers` returned by the backend's
`insert`; `id` is `Option` because `identifiers[0]?.id` may be
absent. -/
structure Ident where
  id : Option Nat
deriving DecidableEq

/-- The backend `InsertResult`. -/
structure InsertResult where
  identifiers : List Ident
deriving DecidableEq

/-- Legacy `insertData(data, repoName)` (src/src/index.js
lines 115-124): delegates the single document to the backend, whose
outcome is `res`, and returns the scalar `res.identifiers[0]?.id`;
errors are re-rejected unchanged. -/
def insertData (res : Except BackendError InsertResult) :
    Except BackendError (Option Nat) :=
  match res with
  | .error e => .error e
  | .ok r => .ok (r.identifiers.head?.bind Ident.id)

/-- Legacy `insertDatas(datas, repoName)` (src/src/index.js
lines 133-145): maps `identifiers` to their ids and replaces an
empty result list by the `null` sentinel (`none`); errors are
re-rejected unchanged. -/
def insertDatas (res : Except BackendError InsertResult) :
    Except BackendError (Option (List (Option Nat))) :=
  match res with
  | .error e => .error e
  | .ok r =>
    let ids := r.identifiers.map Ident.id
    .ok (if ids.length == 0 then none else some ids)

/-- The find-options object `fetchAllRepoPaginated(page, limit,
repoName)` passes to `repo.find` (src/src/index.d.ts line 881):
`{ skip: page * limit, take: limit }`. -/
structure PageOpts where
  skip : Nat
  take : Nat
deriving DecidableEq

def fetchAllRepoPaginated (page limit : Nat) : PageOpts :=
  { skip := page * limit, take := limit }

/-- The find-options object `fetchByValuePaginated(fieldName,
fieldValue, page, limit, repoName)` passes to `repo.find`
(src/src/index.d.ts lines 859-863): an equality filter on the field
plus `skip: page * limit, take: limit`. -/
structure PageOptsWhere (V : Type) where
  field : String
  value : V
  skip : Nat
  take : Nat

def fetchByValuePaginated {V : Type} (fieldName : String) (fieldValue : V)
    (page limit : Nat) : PageOptsWhere V :=
  { field := fieldName, value := fieldValue
    skip := page * limit, take := limit }

/-- A registry that does not yet hold key `k` holds, after appending
`(k, c)`, exactly `c` under `k`. -/
theorem getByKey_append_self (reg : Registry) (k : String) (c : Conn)
    (h : getByKey reg k = none) :
    getByKey (reg ++ [(k, c)]) k = some c := by
  unfold getByKey at h ⊢
  rw [List.find?_append]
  cases hf : reg.find? (fun p => p.1 == k) with
  | none => simp [List.find?]
  | some v => rw [hf] at h; simp at h

/-- If no entry of `reg` carries key `k`, then `k` is not among the
registry's keys. -/
theorem not_mem_keys_of_getByKey_none (reg : Registry) (k : String)
    (h : getByKey reg k = none) :
    k ∉ reg.map Prod.fst := by
  unfold getByKey at h
  intro hmem
  obtain ⟨p, hp, hpk⟩ := List.mem_map.mp hmem
  cases hf : reg.find? (fun q => q.1 == k) with
  | some v => rw [hf] at h; simp at h
  | none =>
    have := List.find?_eq_none.mp hf p hp
    simp [hpk] at this

/-- Sample state: Idle, with listeners 1, 2 registered for `connect`
in that order. -/
def stIdle : ConnSt := ⟨false, false, [1, 2], []⟩

/-- Sample state: Connected (listener 4 on `connect`, 5 on
`disconnect`). -/
def stConnected : ConnSt := ⟨true, false, [4], [5]⟩

/-- Sample state: Connecting — `connect()` in flight, backend not yet
initialized. -/
def stConnecting : ConnSt := ⟨false, true, [], []⟩

/-- Sample state: the transient post-initialization window —
backend initialized but the `#initConn` flag not yet cleared by the
`finally` clause. -/
def stInitWindow : ConnSt := ⟨true, true, [], []⟩

/-- Sample registered instance under key `"h:3306/d"`. -/
def connW : Conn := ⟨"h:3306/d", ⟨"mysql", "h", 3306, "u", "", "d", [], false, true⟩⟩

/-- Sample registry holding `connW`. -/
def regW : Registry := [("h:3306/d", connW)]

/-- C4: `connect()` on an Idle connection (`isInitialized` false,
`#initConn` clear): when the backend's initialization succeeds, the
connection becomes Connected and the `connect` event is emitted to
exactly the registered `connect` listeners, in registration order;
when it fails, the connection stays Idle and the backend's error is
propagated unchanged; in both outcomes the `finally` clause has
cleared the `#initConn` flag. -/
theorem C4_connect_idle (st : ConnSt) (initOk : Bool) (iErr : BackendError)
    (hI : st.isInit = false) (hC : st.initConn = false) :
    (initOk = true →
      (connect st initOk iErr).1.isInit = true ∧
      (connect st initOk iErr).2 = .ok st.listenersConnect ∧
      (connect st initOk iErr).1.initConn = false) ∧
    (initOk = false →
      (connect st initOk iErr).1.isInit = false ∧
      (connect st initOk iErr).2 = .error (.backend iErr) ∧
      (connect st initOk iErr).1.initConn = false) := by
  constructor <;> intro h <;> subst h <;> simp [connect, hI, hC]

/-- C4 witness: on the concrete Idle state `stIdle` (listeners 1, 2
registered in that order) a successful `connect` fires to `[1, 2]`
and a failing one propagates the backend error. -/
theorem C4_connect_idle_witness :
    (connect stIdle true ⟨"E", 0⟩).2 = .ok [1, 2] ∧
    (connect stIdle false ⟨"E", 0⟩).2 = .error (.backend ⟨"E", 0⟩) :=
  ⟨((C4_connect_idle stIdle true ⟨"E", 0⟩ rfl rfl).1 rfl).2.1,
   ((C4_connect_idle stIdle false ⟨"E", 0⟩ rfl rfl).2 rfl).2.1⟩

/-- C5 counterexample: `connect()` on a connection in the Connecting
state (`#initConn` set, not yet initialized) throws the very same
`Already connected to database` error as the Connected case — not a
distinct `ConnectInProgressError` (`Database is initializing`), which
refutes the claim that the Connecting case fails with a distinct
error. -/
theorem C5_counterexample :
    (connect stConnecting true ⟨"I", 0⟩).2 = .error .alreadyConnected ∧
    DBError.alreadyConnected ≠ .connInProgress ∧
    DBError.message .alreadyConnected = some "Already connected to database" ∧
    DBError.message .connInProgress = some "Database is initializing" :=
  ⟨rfl, by decide, rfl, rfl⟩

/-- C5 amended: `connect()` on a Connected connection fails with
`AlreadyConnectedError` and leaves the state unchanged; `connect()`
on a Connecting connection fails with that same
`AlreadyConnectedError` (the guard `isConnected || #initConn` throws
one shared error), likewise leaving the state unchanged. -/
theorem C5_amended (st : ConnSt) (initOk : Bool) (iErr : BackendError) :
    (st.isInit = true → connect st initOk iErr = (st, .error .alreadyConnected)) ∧
    (st.initConn = true → connect st initOk iErr = (st, .error .alreadyConnected)) := by
  constructor <;> intro h <;> simp [connect, h]

/-- C5 amended, witness: the Connected and Connecting cases at the
concrete states `stConnected` and `stConnecting`. -/
theorem C5_amended_witness :
    connect stConnected true ⟨"I", 0⟩ = (stConnected, .error .alreadyConnected) ∧
    connect stConnecting true ⟨"I", 0⟩ = (stConnecting, .error .alreadyConnected) :=
  ⟨(C5_amended stConnected true ⟨"I", 0⟩).1 rfl,
   (C5_amended stConnecting true ⟨"I", 0⟩).2 rfl⟩

/-- C6: `disconnect()` while not Connected fails with
`NotConnectedError`; on a Connected connection whose backend
`destroy()` succeeds it releases the session (`isInitialized`
becomes false), fires the `disconnect` event to the registered
listeners, the registry still resolves the same key to the same
instance (`disconnect` never touches `#instances`), and a subsequent
`connect()` whose backend initialization succeeds brings the
connection back to Connected and fires its `connect` event. -/
theorem C6_disconnect_reversible (st : ConnSt) (destroyOk : Bool)
    (dErr iErr : BackendError) (reg : Registry) (k : String) (c : Conn)
    (hReg : getByKey reg k = some c) :
    (st.isInit = false → disconnect st destroyOk dErr = (st, .error .notConnected)) ∧
    (st.isInit = true → destroyOk = true →
      (disconnect st destroyOk dErr).1.isInit = false ∧
      (disconnect st destroyOk dErr).2 = .ok st.listenersDisconnect ∧
      getByKey reg k = some c ∧
      (st.initConn = false →
        (connect (disconnect st destroyOk dErr).1 true iErr).1.isInit = true ∧
        (connect (disconnect st destroyOk dErr).1 true iErr).2
          = .ok st.listenersConnect)) := by
  refine ⟨fun h => by simp [disconnect, h], fun h hd => ?_⟩
  subst hd
  refine ⟨by simp [disconnect, h], by simp [disconnect, h], hReg, fun hc => ?_⟩
  constructor <;> simp [disconnect, connect, h, hc]

/-- C6 witness: the concrete Connected state `stConnected`, with the
instance `connW` registered in `regW` under its key: disconnect
succeeds and fires listener 5, the registry entry is intact, and
reconnecting succeeds and fires listener 4. -/
theorem C6_disconnect_reversible_witness :
    (disconnect stConnected true ⟨"D", 0⟩).2 = .ok [5] ∧
    getByKey regW "h:3306/d" = some connW ∧
    (connect (disconnect stConnected true ⟨"D", 0⟩).1 true ⟨"I", 0⟩).1.isInit = true ∧
    (connect (disconnect stConnected true ⟨"D", 0⟩).1 true ⟨"I", 0⟩).2 = .ok [4] :=
  ⟨((C6_disconnect_reversible stConnected true ⟨"D", 0⟩ ⟨"I", 0⟩ regW "h:3306/d" connW
      rfl).2 rfl rfl).2.1,
   ((C6_disconnect_reversible stConnected true ⟨"D", 0⟩ ⟨"I", 0⟩ regW "h:3306/d" connW
      rfl).2 rfl rfl).2.2.1,
   (((C6_disconnect_reversible stConnected true ⟨"D", 0⟩ ⟨"I", 0⟩ regW "h:3306/d" connW
      rfl).2 rfl rfl).2.2.2 rfl).1,
   (((C6_disconnect_reversible stConnected true ⟨"D", 0⟩ ⟨"I", 0⟩ regW "h:3306/d" connW
      rfl).2 rfl rfl).2.2.2 rfl).2⟩

/-- C8: both pagination helpers request `skip = page * limit` and
`take = limit` (zero-based pages), in particular `(page 0, limit 10)`
requests skip 0 / take 10 and `(page 2, limit 10)` requests skip 20 /
take 10. -/
theorem C8_pagination_skip_take (page limit : Nat) (fieldName : String)
    {V : Type} (fieldValue : V) :
    (fetchAllRepoPaginated page limit).skip = page * limit ∧
    (fetchAllRepoPaginated page limit).take = limit ∧
    (fetchByValuePaginated fieldName fieldValue page limit).skip = page * limit ∧
    (fetchByValuePaginated fieldName fieldValue page limit).take = limit ∧
    fetchAllRepoPaginated 0 10 = ⟨0, 10⟩ ∧
    fetchAllRepoPaginated 2 10 = ⟨20, 10⟩ :=
  ⟨rfl, rfl, rfl, rfl, rfl, rfl⟩

/-- C9: the legacy single-document insert returns the inserted id as
a scalar (`7`, of type `Option Nat`, not a sequence), and the legacy
bulk insert of zero documents (backend reports no identifiers)
returns the `null` sentinel `none`, which is distinct from the empty
sequence `some []`. -/
theorem C9_legacy_insert_scalar_and_sentinel :
    insertData (.ok ⟨[⟨some 7⟩]⟩) = .ok (some 7) ∧
    insertDatas (.ok ⟨[]⟩) = .ok none ∧
    (none : Option (List (Option Nat))) ≠ some [] :=
  ⟨rfl, rfl, by simp⟩

/-- C10: constructor validation runs before the registry lookup — a
configuration missing `type`, `host`, `user`, `database` or `tables`
throws the corresponding configuration error for any registry state,
including one already holding the same key; and when validation
passes and the key is registered, the existing instance is returned
with the registry left unchanged. -/
theorem C10_validation_before_lookup (reg : Registry) (cfg : Config) (c : Conn) :
    (cfg.type.isEmpty = true → construct reg cfg = .error .typeRequired) ∧
    (cfg.type.isEmpty = false → cfg.host.isEmpty = true →
      construct reg cfg = .error .hostRequired) ∧
    (cfg.type.isEmpty = false → cfg.host.isEmpty = false → cfg.user.isEmpty = true →
      construct reg cfg = .error .userRequired) ∧
    (cfg.type.isEmpty = false → cfg.host.isEmpty = false → cfg.user.isEmpty = false →
      cfg.database.isEmpty = true → construct reg cfg = .error .databaseRequired) ∧
    (cfg.type.isEmpty = false → cfg.host.isEmpty = false → cfg.user.isEmpty = false →
      cfg.database.isEmpty = false → cfg.tables = none →
      construct reg cfg = .error .tablesRequired) ∧
    (cfg.type.isEmpty = false → cfg.host.isEmpty = false → cfg.user.isEmpty = false →
      cfg.database.isEmpty = false → ∀ tbls, cfg.tables = some tbls →
      getByKey reg (dbKey cfg.host cfg.port cfg.database) = some c →
      construct reg cfg = .ok (reg, c)) := by
  refine ⟨fun h1 => ?_, fun h1 h2 => ?_, fun h1 h2 h3 => ?_, fun h1 h2 h3 h4 => ?_,
    fun h1 h2 h3 h4 h5 => ?_, fun h1 h2 h3 h4 tbls h5 h6 => ?_⟩
  · simp [construct, h1]
  · simp [construct, h1, h2]
  · simp [construct, h1, h2, h3]
  · simp [construct, h1, h2, h3, h4]
  · simp [construct, h1, h2, h3, h4, h5]
  · simp [construct, h1, h2, h3, h4, h5, h6]

/-- C10 witness: the registry `regW` already holds key `"h:3306/d"`:
a construction call missing `type` for that endpoint still throws the
configuration error, and a valid call with different credentials
returns the registered instance `connW` with the registry
unchanged. -/
theorem C10_validation_before_lookup_witness :
    construct regW ⟨"", "h", 3306, "u", "", "d", some [], .bool false⟩
      = .error .typeRequired ∧
    construct regW ⟨"mysql", "h", 3306, "other", "pw", "d", some ["x"], .bool false⟩
      = .ok (regW, connW) :=
  ⟨(C10_validation_before_lookup regW _ connW).1 rfl,
   (C10_validation_before_lookup regW _ connW).2.2.2.2.2 rfl rfl rfl rfl ["x"] rfl
     (by rfl)⟩

/-- Keys stay duplicate-free when a fresh key is appended. -/
theorem nodup_keys_append (reg : Registry) (k : String) (c : Conn)
    (hnd : (reg.map Prod.fst).Nodup) (hk : k ∉ reg.map Prod.fst) :
    ((reg ++ [(k, c)]).map Prod.fst).Nodup := by
  rw [List.map_append]
  simp [List.nodup_append, hnd, hk]

/-- Inversion of a successful construction: the host and database
were nonempty, the returned instance is registered in the resulting
registry under the key derived from the RAW host, and the registry
either was returned unchanged (hit) or was extended by exactly the
new entry (miss). -/
theorem construct_ok_inv (reg reg1 : Registry) (cfg : Config) (c1 : Conn)
    (h1 : construct reg cfg = .ok (reg1, c1)) :
    cfg.host.isEmpty = false ∧ cfg.database.isEmpty = false ∧
    getByKey reg1 (dbKey cfg.host cfg.port cfg.database) = some c1 ∧
    (reg1 = reg ∨
      (getByKey reg (dbKey cfg.host cfg.port cfg.database) = none ∧
        reg1 = reg ++ [(dbKey cfg.host cfg.port cfg.database, c1)])) := by
  rw [construct] at h1
  split_ifs at h1 with hty hhost huser hdb
  cases htb : cfg.tables with
  | none => rw [htb] at h1; exact Except.noConfusion h1
  | some tbls =>
    rw [htb] at h1
    dsimp only at h1
    cases hlook : getByKey reg (dbKey cfg.host cfg.port cfg.database) with
    | some c =>
      rw [hlook] at h1
      simp only [Except.ok.injEq, Prod.mk.injEq] at h1
      obtain ⟨hr, hc⟩ := h1
      subst hr; subst hc
      exact ⟨by simpa using hhost, by simpa using hdb, hlook, Or.inl rfl⟩
    | none =>
      rw [hlook] at h1
      simp only [Except.ok.injEq, Prod.mk.injEq] at h1
      obtain ⟨hr, hc⟩ := h1
      subst hc
      subst hr
      exact ⟨by simpa using hhost, by simpa using hdb,
        getByKey_append_self reg _ _ hlook, Or.inr ⟨rfl, rfl⟩⟩

/-- Configuration with host `"localhost"` used in the C1
evaluation. -/
def cfgLocal : Config :=
  ⟨"mysql", "localhost", 3306, "root", "", "db", some ["t1"], .bool false⟩

/-- The same logical endpoint written with host `"127.0.0.1"`,
with differing user, password and tables. -/
def cfgLoop : Config :=
  ⟨"mysql", "127.0.0.1", 3306, "u2", "pw", "db", some ["t2"], .bool false⟩

/-- The instance construction of `cfgLocal` produces: keyed by the
raw host, but with the normalized DataSource host. -/
def connLocal : Conn :=
  ⟨"localhost:3306/db", ⟨"mysql", "127.0.0.1", 3306, "root", "", "db", ["t1"], false, true⟩⟩

/-- The instance construction of `cfgLoop` produces. -/
def connLoop : Conn :=
  ⟨"127.0.0.1:3306/db", ⟨"mysql", "127.0.0.1", 3306, "u2", "pw", "db", ["t2"], false, true⟩⟩

/-- The registry after constructing `cfgLocal` from an empty
registry. -/
def regL : Registry := [("localhost:3306/db", connLocal)]

/-- The two construction calls of the C1 evaluation, run in sequence
from an empty registry; returns the final registry and the two
instances handed back. -/
def twoCalls : Except DBError (Registry × Conn × Conn) :=
  match construct [] cfgLocal with
  | .error e => .error e
  | .ok (reg1, c1) =>
    match construct reg1 cfgLoop with
    | .error e => .error e
    | .ok (reg2, c2) => .ok (reg2, c1, c2)

/-- C1 counterexample: the registry key is derived from the RAW host
(part_001 line 40) while `"localhost"` is normalized to
`"127.0.0.1"` only inside the DataSource options (line 50) — so a
call with host `"localhost"` and a call with host `"127.0.0.1"`
(same port and database, hence the same normalized endpoint, as the
equal DataSource hosts show) yield two distinct coexisting
instances, refuting the claim. -/
theorem C1_counterexample :
    twoCalls = .ok ([("localhost:3306/db", connLocal), ("127.0.0.1:3306/db", connLoop)],
      connLocal, connLoop) ∧
    connLocal ≠ connLoop ∧
    connLocal.dataSource.host = connLoop.dataSource.host ∧
    connLocal.dataSource.port = connLoop.dataSource.port ∧
    connLocal.dataSource.database = connLoop.dataSource.database :=
  ⟨by rfl, by decide, rfl, rfl, rfl⟩

/-- C1 amended: instance sharing is keyed by the RAW
`(host, port, database)` triple — for two construction calls whose
configurations agree on the literal host, port and database, the
second call (with any valid differing user/password/tables) returns
the identical instance and leaves the registry unchanged, and
registry keys remain duplicate-free, so two instances with the same
endpointKey never coexist; `"localhost"` is normalized only in the
backend options, not in the key, so a `"localhost"` call and a
`"127.0.0.1"` call yield distinct instances. -/
theorem C1_amended (reg reg1 : Registry) (cfg1 cfg2 : Config) (c1 : Conn)
    (h1 : construct reg cfg1 = .ok (reg1, c1))
    (hh : cfg2.host = cfg1.host) (hp : cfg2.port = cfg1.port)
    (hd : cfg2.database = cfg1.database)
    (ht : cfg2.type.isEmpty = false) (hu : cfg2.user.isEmpty = false)
    (tbls2 : List String) (htb : cfg2.tables = some tbls2)
    (hnd : (reg.map Prod.fst).Nodup) :
    construct reg1 cfg2 = .ok (reg1, c1) ∧ (reg1.map Prod.fst).Nodup := by
  obtain ⟨hh1, hd1, hlook1, hcases⟩ := construct_ok_inv reg reg1 cfg1 c1 h1
  constructor
  · rw [construct]
    have hh2 : cfg2.host.isEmpty = false := by rw [hh]; exact hh1
    have hd2 : cfg2.database.isEmpty = false := by rw [hd]; exact hd1
    simp [ht, hh2, hu, hd2, hh1, hd1, htb, hh, hp, hd, hlook1]
  · rcases hcases with h | ⟨hnone, happ⟩
    · rw [h]; exact hnd
    · rw [happ]
      exact nodup_keys_append reg _ c1 hnd
        (not_mem_keys_of_getByKey_none reg _ hnone)

/-- C1 amended, witness: after constructing `cfgLocal` from the empty
registry, a second call for the same raw endpoint with different
user, password and tables returns the identical instance `connLocal`
and leaves the one-entry registry (with duplicate-free keys)
unchanged. -/
theorem C1_amended_witness :
    construct regL ⟨"mysql", "localhost", 3306, "u2", "pw", "db", some ["t2"], .bool false⟩
      = .ok (regL, connLocal) ∧ (regL.map Prod.fst).Nodup :=
  C1_amended [] regL cfgLocal
    ⟨"mysql", "localhost", 3306, "u2", "pw", "db", some ["t2"], .bool false⟩
    connLocal (by rfl) rfl rfl rfl rfl rfl ["t2"] rfl (by simp)

/-- C2 counterexample: on a Connected connection whose liveness query
fails and whose internal `disconnect()` then also fails (the backend
`destroy()` rejects), `checkConnection()` propagates the disconnect
error instead of returning a boolean — the async catch handler
`async (err) => { await this.disconnect(); }` does not guard the
inner rejection. This refutes "never raises". -/
theorem C2_counterexample :
    (checkConnection stConnected false false true ⟨"D", 2⟩ ⟨"I", 3⟩).2
      = .error (.backend ⟨"D", 2⟩) := rfl

/-- C2 amended: `checkConnection()` raises exactly when it was
Connected, the liveness query failed, and the internal disconnect
also failed (propagating the disconnect's backend error); in every
other backend outcome it returns, and the boolean it returns equals
the connection's `isConnected` state at the moment it returns. -/
theorem C2_amended (st : ConnSt) (queryOk destroyOk initOk : Bool)
    (dErr iErr : BackendError) :
    (checkConnection st queryOk destroyOk initOk dErr iErr).2 =
      (if st.isInit && !queryOk && !destroyOk then .error (.backend dErr)
       else .ok (checkConnection st queryOk destroyOk initOk dErr iErr).1.isInit) := by
  obtain ⟨i, ic, lc, ld⟩ := st
  cases i <;> cases ic <;> cases queryOk <;> cases destroyOk <;> cases initOk <;>
    simp [checkConnection, connect, disconnect]

/-- C3 counterexample: a CRUD call (`find`) on a connection in the
Connecting state (`#initConn` set, backend not yet initialized)
fails with `Not connected to database`, not with the claimed
`ConnectInProgressError` (`Database is initializing`): the guard
`#checkConnection` tests `!isConnected` first. -/
theorem C3_counterexample :
    (find stConnecting (.ok (0 : Nat)) true ⟨"D", 0⟩).2 = .error .notConnected ∧
    DBError.notConnected ≠ .connInProgress ∧
    DBError.message .notConnected = some "Not connected to database" :=
  ⟨rfl, by decide, rfl⟩

/-- C3 amended: every CRUD facade operation invoked while not
Connected — including the Connecting state, where the backend is not
yet initialized — fails with `NotConnectedError` without contacting
the backend (the result is the same for every backend outcome `r`);
`ConnectInProgressError` is raised instead only in the transient
window where the backend is initialized but the `#initConn` flag has
not yet been cleared. -/
theorem C3_amended {α : Type} (st : ConnSt) (r : Except BackendError α)
    (destroyOk : Bool) (dErr : BackendError) :
    (st.isInit = false →
      find st r destroyOk dErr = (st, .error .notConnected) ∧
      findOne st r destroyOk dErr = (st, .error .notConnected) ∧
      insert st r destroyOk dErr = (st, .error .notConnected) ∧
      update st r destroyOk dErr = (st, .error .notConnected) ∧
      delete st r destroyOk dErr = (st, .error .notConnected) ∧
      count st r destroyOk dErr = (st, .error .notConnected) ∧
      increment st r destroyOk dErr = (st, .error .notConnected) ∧
      decrement st r destroyOk dErr = (st, .error .notConnected)) ∧
    (st.isInit = true → st.initConn = true →
      find st r destroyOk dErr = (st, .error .connInProgress) ∧
      findOne st r destroyOk dErr = (st, .error .connInProgress) ∧
      insert st r destroyOk dErr = (st, .error .connInProgress) ∧
      update st r destroyOk dErr = (st, .error .connInProgress) ∧
      delete st r destroyOk dErr = (st, .error .connInProgress) ∧
      count st r destroyOk dErr = (st, .error .connInProgress) ∧
      increment st r destroyOk dErr = (st, .error .connInProgress) ∧
      decrement st r destroyOk dErr = (st, .error .connInProgress)) := by
  constructor
  · intro h
    simp [find, findOne, insert, update, delete, count, increment, decrement,
      runCrud, privGuard, h]
  · intro h1 h2
    simp [find, findOne, insert, update, delete, count, increment, decrement,
      runCrud, privGuard, h1, h2]

/-- C3 amended, witness: `find` at the concrete Connecting state
fails with `NotConnectedError`; at the concrete post-initialization
window it fails with `ConnectInProgressError`. -/
theorem C3_amended_witness :
    find stConnecting (.ok (0 : Nat)) true ⟨"D", 0⟩
      = (stConnecting, .error .notConnected) ∧
    find stInitWindow (.ok (0 : Nat)) true ⟨"D", 0⟩
      = (stInitWindow, .error .connInProgress) :=
  ⟨((C3_amended stConnecting (.ok 0) true ⟨"D", 0⟩).1 rfl).1,
   ((C3_amended stInitWindow (.ok 0) true ⟨"D", 0⟩).2 rfl rfl).1⟩

/-- C7 counterexample: a connection-category backend error
(`ECONNREFUSED`) whose internal disconnect then fails: the caller
sees the disconnect's error, not the original backend error — the
`throw err` line of `#catchConnectionError` is never reached when
`await this.disconnect()` rejects. This refutes "re-raises the
original backend error unchanged". -/
theorem C7_counterexample :
    (find stConnected (.error ⟨"ECONNREFUSED", 1⟩ : Except BackendError Nat) false
        ⟨"DFAIL", 2⟩).2 = .error (.backend ⟨"DFAIL", 2⟩) ∧
    (⟨"DFAIL", 2⟩ : BackendError) ≠ ⟨"ECONNREFUSED", 1⟩ :=
  ⟨rfl, by decide⟩

/-- C7 amended: for every CRUD facade operation on a Connected
connection: a backend error with code `ECONNREFUSED` or `ECONNRESET`
triggers an internal disconnect and, when that disconnect succeeds,
the original error is re-raised unchanged; when the internal
disconnect itself fails, its error replaces the original; any other
backend error is re-raised unchanged with no disconnect and no
retry. All eight operations behave identically. -/
theorem C7_amended {α : Type} (st : ConnSt) (e : BackendError)
    (destroyOk : Bool) (dErr : BackendError)
    (hI : st.isInit = true) (hC : st.initConn = false) :
    ((e.code = "ECONNREFUSED" ∨ e.code = "ECONNRESET") → destroyOk = true →
      find st (.error e : Except BackendError α) destroyOk dErr
        = ({ st with isInit := false }, .error (.backend e))) ∧
    ((e.code = "ECONNREFUSED" ∨ e.code = "ECONNRESET") → destroyOk = false →
      find st (.error e : Except BackendError α) destroyOk dErr
        = (st, .error (.backend dErr))) ∧
    (e.code ≠ "ECONNREFUSED" → e.code ≠ "ECONNRESET" →
      find st (.error e : Except BackendError α) destroyOk dErr
        = (st, .error (.backend e))) ∧
    (∀ r : Except BackendError α,
      findOne st r destroyOk dErr = find st r destroyOk dErr ∧
      insert st r destroyOk dErr = find st r destroyOk dErr ∧
      update st r destroyOk dErr = find st r destroyOk dErr ∧
      delete st r destroyOk dErr = find st r destroyOk dErr ∧
      count st r destroyOk dErr = find st r destroyOk dErr ∧
      increment st r destroyOk dErr = find st r destroyOk dErr ∧
      decrement st r destroyOk dErr = find st r destroyOk dErr) := by
  refine ⟨fun hcode hd => ?_, fun hcode hd => ?_, fun hc1 hc2 => ?_,
    fun r => ⟨rfl, rfl, rfl, rfl, rfl, rfl, rfl⟩⟩
  · subst hd
    rcases hcode with h | h <;>
      simp [find, runCrud, privGuard, catchConnectionError, disconnect, hI, hC, h]
  · subst hd
    rcases hcode with h | h <;>
      simp [find, runCrud, privGuard, catchConnectionError, disconnect, hI, hC, h]
  · simp [find, runCrud, privGuard, catchConnectionError, hI, hC, hc1, hc2]

/-- C7 amended, witness: at the concrete Connected state, an
`ECONNREFUSED` error with a successful internal disconnect marks the
connection disconnected and re-raises the original error, and an
unrelated error is re-raised unchanged with the state untouched. -/
theorem C7_amended_witness :
    find stConnected (.error ⟨"ECONNREFUSED", 1⟩ : Except BackendError Nat) true ⟨"D", 2⟩
      = ({ stConnected with isInit := false }, .error (.backend ⟨"ECONNREFUSED", 1⟩)) ∧
    find stConnected (.error ⟨"OTHER", 3⟩ : Except BackendError Nat) true ⟨"D", 2⟩
      = (stConnected, .error (.backend ⟨"OTHER", 3⟩)) :=
  ⟨(C7_amended stConnected ⟨"ECONNREFUSED", 1⟩ true ⟨"D", 2⟩ rfl rfl).1 (Or.inl rfl) rfl,
   (C7_amended stConnected ⟨"OTHER", 3⟩ true ⟨"D", 2⟩ rfl rfl).2.2.1 (by decide)
     (by decide)⟩

end Darco

